import Mathlib

/-
Verification of the autofee billing core.

Shallow embedding of the repository's allocation/billing logic:
* src/database/Database.ts        -- record types, table state, queries, upserts
* src/services/BillCalculator.ts  -- the Allocation Engine
* src/components/BillCalculationForm.tsx -- the two calculation handlers
* src/utils/sampleData.ts         -- the sample data used by the spec's example

Modelling conventions:
* JavaScript numbers are modelled as exact rationals (ℚ); all numeric data in
  the repository (areas, cumulative readings, costs) is decimal user input, and
  every claim is about the exact arithmetic of the allocation formulas.
* `Math.round` is `jround : ℚ → ℤ`, floor of x + 1/2 (JS rounds half toward +∞).
* Each SQL table is a list of rows holding the content columns; the synthetic
  `id` and `created_at` columns (AUTOINCREMENT / CURRENT_TIMESTAMP) are not part
  of the data model the spec describes and are omitted.  `INSERT OR REPLACE` on
  a UNIQUE key is modelled as: delete the rows with that key, append the new row
  (the replacement receives a fresh largest rowid, so it comes last in a scan).
* `SELECT ... WHERE` without ORDER BY scans in rowid order: `List.filter` /
  `List.find?` on the stored list.  `getUnits` uses ORDER BY id; the model keeps
  the stored list (states used in concrete theorems store units in id order).
-/

namespace Autofee

/-- JavaScript `Math.round` on an exact rational: round half toward +∞. -/
def jround (q : ℚ) : ℤ := ⌊q + 1/2⌋

/-- Row of the `units` table (interface `Unit`, Database.ts). -/
structure Unit where
  id : String
  name : String
  area : ℚ
deriving DecidableEq

/-- Row of the `meter_readings` table (interface `MeterReading`, Database.ts). -/
structure MeterReading where
  unit_id : String
  year : ℤ
  month : ℤ
  electricity_reading : ℚ
  water_reading : ℚ
deriving DecidableEq

/-- Row of the `monthly_bills` table (interface `MonthlyBill`, Database.ts). -/
structure MonthlyBill where
  year : ℤ
  month : ℤ
  total_electricity_cost : ℚ
  total_water_cost : ℚ
  total_management_cost : ℚ
deriving DecidableEq

/-- Row of the `unit_bills` table (interface `UnitBill`, Database.ts).
The four cost columns always receive `Math.round` results, hence ℤ. -/
structure UnitBill where
  unit_id : String
  year : ℤ
  month : ℤ
  electricity_cost : ℤ
  water_cost : ℤ
  management_cost : ℤ
  total_cost : ℤ
deriving DecidableEq

/-- The content of the four tables of the embedded SQLite database. -/
@[ext]
structure DBState where
  units : List Unit
  meter_readings : List MeterReading
  monthly_bills : List MonthlyBill
  unit_bills : List UnitBill
deriving DecidableEq

/-- `Database.getUnits` (`SELECT * FROM units ORDER BY id`). -/
def getUnits (s : DBState) : List Unit := s.units

/-- `Database.getMeterReadings(year, month)`
(`SELECT * FROM meter_readings WHERE year = ? AND month = ?`). -/
def getMeterReadings (readings : List MeterReading) (year month : ℤ) : List MeterReading :=
  readings.filter (fun r => r.year == year && r.month == month)

/-- `Database.getPreviousMonthReading(unitId, year, month)`:
`prevMonth = month - 1`; when that is 0, wrap to month 12 of `year - 1`;
then select the (unique) reading of that unit for the previous period. -/
def getPreviousMonthReading (readings : List MeterReading) (unitId : String)
    (year month : ℤ) : Option MeterReading :=
  let prevYear := if month - 1 == 0 then year - 1 else year
  let prevMonth := if month - 1 == 0 then (12 : ℤ) else month - 1
  readings.find? (fun r => r.unit_id == unitId && r.year == prevYear && r.month == prevMonth)

/-- `Database.getMonthlyBill(year, month)`. -/
def getMonthlyBill (bills : List MonthlyBill) (year month : ℤ) : Option MonthlyBill :=
  bills.find? (fun b => b.year == year && b.month == month)

/-- `INSERT OR REPLACE INTO monthly_bills` (UNIQUE(year, month)). -/
def upsertMonthlyBill (bills : List MonthlyBill) (b : MonthlyBill) : List MonthlyBill :=
  (bills.filter (fun x => !(x.year == b.year && x.month == b.month))) ++ [b]

/-- `Database.saveMonthlyBill`. -/
def saveMonthlyBill (s : DBState) (b : MonthlyBill) : DBState :=
  { s with monthly_bills := upsertMonthlyBill s.monthly_bills b }

/-- `INSERT OR REPLACE INTO unit_bills` (UNIQUE(unit_id, year, month)). -/
def upsertUnitBill (bills : List UnitBill) (b : UnitBill) : List UnitBill :=
  (bills.filter (fun x => !(x.unit_id == b.unit_id && x.year == b.year && x.month == b.month))) ++ [b]

/-- `Database.saveUnitBill`. -/
def saveUnitBill (s : DBState) (b : UnitBill) : DBState :=
  { s with unit_bills := upsertUnitBill s.unit_bills b }

/-- The upsert key of a unit_bills row (its UNIQUE constraint columns). -/
def unitBillKey (b : UnitBill) : String × ℤ × ℤ := (b.unit_id, b.year, b.month)

/-- `BillCalculator.calculateElectricityUsage`: 0 with no previous reading,
else the non-negative reading delta. -/
def calculateElectricityUsage (currentReading : MeterReading)
    (previousReading : Option MeterReading) : ℚ :=
  match previousReading with
  | none => 0
  | some p => max 0 (currentReading.electricity_reading - p.electricity_reading)

/-- `BillCalculator.calculateWaterUsage`. -/
def calculateWaterUsage (currentReading : MeterReading)
    (previousReading : Option MeterReading) : ℚ :=
  match previousReading with
  | none => 0
  | some p => max 0 (currentReading.water_reading - p.water_reading)

/-- `BillCalculator.calculateTotalElectricityUsage`: loop over all units,
skipping units with no current reading; `readings` is the meter_readings table
that `this.db.getPreviousMonthReading` consults. -/
def calculateTotalElectricityUsage (readings : List MeterReading) (units : List Unit)
    (currentReadings : List MeterReading) (year month : ℤ) : ℚ :=
  units.foldl (fun totalUsage u =>
    match currentReadings.find? (fun r => r.unit_id == u.id) with
    | none => totalUsage
    | some currentReading =>
        totalUsage + calculateElectricityUsage currentReading
          (getPreviousMonthReading readings u.id year month)) 0

/-- `BillCalculator.calculateTotalWaterUsage`. -/
def calculateTotalWaterUsage (readings : List MeterReading) (units : List Unit)
    (currentReadings : List MeterReading) (year month : ℤ) : ℚ :=
  units.foldl (fun totalUsage u =>
    match currentReadings.find? (fun r => r.unit_id == u.id) with
    | none => totalUsage
    | some currentReading =>
        totalUsage + calculateWaterUsage currentReading
          (getPreviousMonthReading readings u.id year month)) 0

/-- `units.reduce((sum, unit) => sum + unit.area, 0)` (calculateAndSaveBills). -/
def totalAreaOf (units : List Unit) : ℚ :=
  units.foldl (fun sum u => sum + u.area) 0

/-- The pre-rounding `electricityCost` of the calculateAndSaveBills loop body:
`totalElectricityUsage > 0 ? usage / totalElectricityUsage * totalElectricityCost : 0`. -/
def preElectricityCost (readings : List MeterReading) (totalElectricityUsage : ℚ)
    (year month : ℤ) (totalElectricityCost : ℚ) (u : Unit) (currentReading : MeterReading) : ℚ :=
  let electricityUsage := calculateElectricityUsage currentReading
    (getPreviousMonthReading readings u.id year month)
  if 0 < totalElectricityUsage then electricityUsage / totalElectricityUsage * totalElectricityCost
  else 0

/-- The pre-rounding `waterCost` of the loop body. -/
def preWaterCost (readings : List MeterReading) (totalWaterUsage : ℚ)
    (year month : ℤ) (totalWaterCost : ℚ) (u : Unit) (currentReading : MeterReading) : ℚ :=
  let waterUsage := calculateWaterUsage currentReading
    (getPreviousMonthReading readings u.id year month)
  if 0 < totalWaterUsage then waterUsage / totalWaterUsage * totalWaterCost
  else 0

/-- The pre-rounding `managementCost` of the loop body:
`(unit.area / totalArea) * totalManagementCost`. -/
def preManagementCost (totalArea totalManagementCost : ℚ) (u : Unit) : ℚ :=
  u.area / totalArea * totalManagementCost

/-- The `UnitBill` literal built by one iteration of the calculateAndSaveBills
loop (BillCalculator.ts lines 46-71): each of the three component columns is
rounded on its own, and `total_cost` is the one-shot rounding of the sum of the
three pre-rounding components. -/
def unitBillFor (readings : List MeterReading)
    (totalElectricityUsage totalWaterUsage totalArea : ℚ) (year month : ℤ)
    (totalElectricityCost totalWaterCost totalManagementCost : ℚ)
    (u : Unit) (currentReading : MeterReading) : UnitBill :=
  let electricityCost := preElectricityCost readings totalElectricityUsage year month
    totalElectricityCost u currentReading
  let waterCost := preWaterCost readings totalWaterUsage year month
    totalWaterCost u currentReading
  let managementCost := preManagementCost totalArea totalManagementCost u
  { unit_id := u.id, year := year, month := month,
    electricity_cost := jround electricityCost,
    water_cost := jround waterCost,
    management_cost := jround managementCost,
    total_cost := jround (electricityCost + waterCost + managementCost) }

/-- One iteration of the calculateAndSaveBills loop (named here so the fold can
be reasoned about): skip the unit when it has no current-month reading
(`if (!currentReading) continue`), otherwise build its bill, save it and append
it to the returned list. -/
def billStep (readings currentReadings : List MeterReading)
    (totalElectricityUsage totalWaterUsage totalArea : ℚ) (year month : ℤ)
    (totalElectricityCost totalWaterCost totalManagementCost : ℚ)
    (acc : DBState × List UnitBill) (u : Unit) : DBState × List UnitBill :=
  match currentReadings.find? (fun r => r.unit_id == u.id) with
  | none => acc
  | some currentReading =>
      let b := unitBillFor readings totalElectricityUsage totalWaterUsage totalArea
        year month totalElectricityCost totalWaterCost totalManagementCost u currentReading
      (saveUnitBill acc.1 b, acc.2 ++ [b])

/-- `BillCalculator.calculateAndSaveBills`: save the MonthlyBill, then for each
unit having a current-month reading compute and save its bill, collecting the
bills in order.  Returns the final database state and the returned bill list.
The saves only ever touch monthly_bills/unit_bills, so the reads of units and
meter_readings during the run see the initial table contents. -/
def calculateAndSaveBills (s : DBState) (year month : ℤ)
    (totalElectricityCost totalWaterCost totalManagementCost : ℚ) :
    DBState × List UnitBill :=
  let monthlyBill : MonthlyBill :=
    { year := year, month := month,
      total_electricity_cost := totalElectricityCost,
      total_water_cost := totalWaterCost,
      total_management_cost := totalManagementCost }
  let s1 := saveMonthlyBill s monthlyBill
  let units := getUnits s1
  let currentReadings := getMeterReadings s1.meter_readings year month
  let totalArea := totalAreaOf units
  let totalElectricityUsage :=
    calculateTotalElectricityUsage s1.meter_readings units currentReadings year month
  let totalWaterUsage :=
    calculateTotalWaterUsage s1.meter_readings units currentReadings year month
  units.foldl (billStep s1.meter_readings currentReadings totalElectricityUsage
    totalWaterUsage totalArea year month totalElectricityCost totalWaterCost
    totalManagementCost) (s1, [])

/-- The bill list calculateAndSaveBills produces, as a filterMap over the unit
registry: one bill per unit with a current-month reading, in registry order. -/
def billsFor (units : List Unit) (readings : List MeterReading) (year month : ℤ)
    (totalElectricityCost totalWaterCost totalManagementCost : ℚ) : List UnitBill :=
  let currentReadings := getMeterReadings readings year month
  let totalArea := totalAreaOf units
  let totalElectricityUsage :=
    calculateTotalElectricityUsage readings units currentReadings year month
  let totalWaterUsage :=
    calculateTotalWaterUsage readings units currentReadings year month
  units.filterMap (fun u =>
    (currentReadings.find? (fun r => r.unit_id == u.id)).map
      (unitBillFor readings totalElectricityUsage totalWaterUsage totalArea
        year month totalElectricityCost totalWaterCost totalManagementCost u))

/-- The billed (unit, current reading) pairs of one run, in registry order. -/
def billedPairs (units : List Unit) (currentReadings : List MeterReading) :
    List (Unit × MeterReading) :=
  units.filterMap (fun u =>
    (currentReadings.find? (fun r => r.unit_id == u.id)).map (fun c => (u, c)))

/-- The result record of `BillCalculator.getUsageDetails`. -/
structure UsageDetails where
  currentElectricity : ℚ
  previousElectricity : ℚ
  electricityUsage : ℚ
  currentWater : ℚ
  previousWater : ℚ
  waterUsage : ℚ
deriving DecidableEq

/-- `BillCalculator.getUsageDetails(unitId, year, month)`; the display-side
re-derivation of the deltas.  `previousReading?.electricity_reading || 0`
is `Option.map` followed by `getD 0` (the JS fallback also fires when the
stored reading is the number 0, which yields the same value 0). -/
def getUsageDetails (s : DBState) (unitId : String) (year month : ℤ) :
    Option UsageDetails :=
  let currentReading :=
    (getMeterReadings s.meter_readings year month).find? (fun r => r.unit_id == unitId)
  let previousReading := getPreviousMonthReading s.meter_readings unitId year month
  match currentReading with
  | none => none
  | some c =>
      some { currentElectricity := c.electricity_reading,
             previousElectricity := (previousReading.map (fun p => p.electricity_reading)).getD 0,
             electricityUsage := calculateElectricityUsage c previousReading,
             currentWater := c.water_reading,
             previousWater := (previousReading.map (fun p => p.water_reading)).getD 0,
             waterUsage := calculateWaterUsage c previousReading }

/-- Outcome message classes of the two calculation handlers in
BillCalculationForm.tsx (success, or one of the user-visible error messages). -/
inductive CalcMessage where
  | invalidAmount
  | negativeAmount
  | negativeShared
  | noReadings
  | calcSuccess
deriving DecidableEq

/-- `handleCalculate` (BillCalculationForm component, lines 49-92).  The three
cost fields arrive as `Option ℚ`: `none` models a `parseFloat` NaN.  Checks run
in source order: NaN check, negativity check, empty-reading-set check; only
then is the Allocation Engine invoked.  Returns the resulting database state,
the message shown, and the bill list displayed on success. -/
def handleCalculate (s : DBState) (year month : ℤ)
    (totalElectricityCost totalWaterCost totalManagementCost : Option ℚ) :
    DBState × CalcMessage × Option (List UnitBill) :=
  match totalElectricityCost, totalWaterCost, totalManagementCost with
  | some electricityCost, some waterCost, some managementCost =>
      if electricityCost < 0 ∨ waterCost < 0 ∨ managementCost < 0 then
        (s, CalcMessage.negativeAmount, none)
      else
        let meterReadings := getMeterReadings s.meter_readings year month
        if meterReadings.length == 0 then
          (s, CalcMessage.noReadings, none)
        else
          let r := calculateAndSaveBills s year month electricityCost waterCost managementCost
          (r.1, CalcMessage.calcSuccess, some r.2)
  | _, _, _ => (s, CalcMessage.invalidAmount, none)

/-- `handleCalculateBills` (BillManagement component, lines 442-491).  The
shared management cost is the value the component's effect derives:
`Math.max(0, (parseFloat(fee) || 0) - (parseFloat(elec) || 0) - (parseFloat(water) || 0))`.
Checks in source order: NaN, negativity, negative shared cost, empty reading
set; only then is the Allocation Engine invoked with the shared cost as the
management total. -/
def handleCalculateBills (s : DBState) (year month : ℤ)
    (totalManagementFee totalElectricityCost totalWaterCost : Option ℚ) :
    DBState × CalcMessage × Option (List UnitBill) :=
  let calculatedSharedCost : ℚ :=
    max 0 ((totalManagementFee.getD 0) - (totalElectricityCost.getD 0) - (totalWaterCost.getD 0))
  match totalManagementFee, totalElectricityCost, totalWaterCost with
  | some totalMgmt, some totalElec, some totalWater =>
      if totalMgmt < 0 ∨ totalElec < 0 ∨ totalWater < 0 then
        (s, CalcMessage.negativeAmount, none)
      else if calculatedSharedCost < 0 then
        (s, CalcMessage.negativeShared, none)
      else
        let meterReadings := getMeterReadings s.meter_readings year month
        if meterReadings.length == 0 then
          (s, CalcMessage.noReadings, none)
        else
          let r := calculateAndSaveBills s year month totalElec totalWater calculatedSharedCost
          (r.1, CalcMessage.calcSuccess, some r.2)
  | _, _, _ => (s, CalcMessage.invalidAmount, none)

/-- Modelled from the spec: the period that the spec calls "the immediately
preceding calendar month" — `(year - 1, 12)` when `month = 1`,
`(year, month - 1)` otherwise.  Used to compare the code's
`getPreviousMonthReading` against the spec's wording. -/
def specPrevPeriod (year month : ℤ) : ℤ × ℤ :=
  if month = 1 then (year - 1, 12) else (year, month - 1)

/-! Concrete states.  `sampleState` is the database produced by
`insertDefaultData` (Database.ts: units 601A area 60, 601B area 120) followed by
`insertSampleData` (sampleData.ts: January and February 2024 readings);
89.7 = 897/10 and 93.36 = 2334/25 as exact rationals. -/

/-- January 2024 reading of 601A (sampleData.ts). -/
def mrA1 : MeterReading :=
  { unit_id := "601A", year := 2024, month := 1,
    electricity_reading := 1923, water_reading := 897/10 }

/-- January 2024 reading of 601B (sampleData.ts). -/
def mrB1 : MeterReading :=
  { unit_id := "601B", year := 2024, month := 1,
    electricity_reading := 30635, water_reading := 897/10 }

/-- February 2024 reading of 601A (sampleData.ts). -/
def mrA2 : MeterReading :=
  { unit_id := "601A", year := 2024, month := 2,
    electricity_reading := 2123, water_reading := 2334/25 }

/-- February 2024 reading of 601B (sampleData.ts). -/
def mrB2 : MeterReading :=
  { unit_id := "601B", year := 2024, month := 2,
    electricity_reading := 30734, water_reading := 2334/25 }

/-- Unit 601A (insertDefaultData). -/
def unitA : Unit := { id := "601A", name := "601A호", area := 60 }

/-- Unit 601B (insertDefaultData). -/
def unitB : Unit := { id := "601B", name := "601B호", area := 120 }

/-- The spec's example database: both units registered, January and February
2024 readings recorded, no bills yet. -/
def sampleState : DBState :=
  { units := [unitA, unitB],
    meter_readings := [mrA1, mrB1, mrA2, mrB2],
    monthly_bills := [],
    unit_bills := [] }

/-- A one-unit database used to exercise the rounding of `total_cost`:
unit U1 (area 1) with a zero January 2024 reading and a February reading of
1 kWh / 0 m³. -/
def oneUnitState : DBState :=
  { units := [{ id := "U1", name := "U1", area := 1 }],
    meter_readings :=
      [ { unit_id := "U1", year := 2024, month := 1,
          electricity_reading := 0, water_reading := 0 },
        { unit_id := "U1", year := 2024, month := 2,
          electricity_reading := 1, water_reading := 0 } ],
    monthly_bills := [],
    unit_bills := [] }

/-- A two-unit database where only U1 has a (first-ever) February 2024 reading:
U1 is billed with zero usage, U2 is registered but not billed. -/
def firstReadingState : DBState :=
  { units := [{ id := "U1", name := "U1", area := 1 },
              { id := "U2", name := "U2", area := 1 }],
    meter_readings :=
      [ { unit_id := "U1", year := 2024, month := 2,
          electricity_reading := 5, water_reading := 5 } ],
    monthly_bills := [],
    unit_bills := [] }

/-! Structural lemmas: which tables each save touches, and the loop of
calculateAndSaveBills as a filterMap over the unit registry. -/

@[simp] lemma saveMonthlyBill_units (s : DBState) (b : MonthlyBill) :
    (saveMonthlyBill s b).units = s.units := rfl

@[simp] lemma saveMonthlyBill_meter_readings (s : DBState) (b : MonthlyBill) :
    (saveMonthlyBill s b).meter_readings = s.meter_readings := rfl

@[simp] lemma saveMonthlyBill_monthly_bills (s : DBState) (b : MonthlyBill) :
    (saveMonthlyBill s b).monthly_bills = upsertMonthlyBill s.monthly_bills b := rfl

@[simp] lemma saveMonthlyBill_unit_bills (s : DBState) (b : MonthlyBill) :
    (saveMonthlyBill s b).unit_bills = s.unit_bills := rfl

@[simp] lemma saveUnitBill_units (s : DBState) (b : UnitBill) :
    (saveUnitBill s b).units = s.units := rfl

@[simp] lemma saveUnitBill_meter_readings (s : DBState) (b : UnitBill) :
    (saveUnitBill s b).meter_readings = s.meter_readings := rfl

@[simp] lemma saveUnitBill_monthly_bills (s : DBState) (b : UnitBill) :
    (saveUnitBill s b).monthly_bills = s.monthly_bills := rfl

@[simp] lemma saveUnitBill_unit_bills (s : DBState) (b : UnitBill) :
    (saveUnitBill s b).unit_bills = upsertUnitBill s.unit_bills b := rfl

lemma foldl_saveUnitBill_units (bs : List UnitBill) (st : DBState) :
    (bs.foldl saveUnitBill st).units = st.units := by
  induction bs generalizing st with
  | nil => rfl
  | cons b bs ih => simp [List.foldl_cons, ih]

lemma foldl_saveUnitBill_meter_readings (bs : List UnitBill) (st : DBState) :
    (bs.foldl saveUnitBill st).meter_readings = st.meter_readings := by
  induction bs generalizing st with
  | nil => rfl
  | cons b bs ih => simp [List.foldl_cons, ih]

lemma foldl_saveUnitBill_monthly_bills (bs : List UnitBill) (st : DBState) :
    (bs.foldl saveUnitBill st).monthly_bills = st.monthly_bills := by
  induction bs generalizing st with
  | nil => rfl
  | cons b bs ih => simp [List.foldl_cons, ih]

lemma foldl_saveUnitBill_unit_bills (bs : List UnitBill) (st : DBState) :
    (bs.foldl saveUnitBill st).unit_bills = bs.foldl upsertUnitBill st.unit_bills := by
  induction bs generalizing st with
  | nil => rfl
  | cons b bs ih => simp [List.foldl_cons, ih]

lemma foldl_billStep (readings cur : List MeterReading) (tEU tWU tA : ℚ) (y m : ℤ)
    (tE tW tM : ℚ) (units : List Unit) (st : DBState) (acc : List UnitBill) :
    units.foldl (billStep readings cur tEU tWU tA y m tE tW tM) (st, acc)
      = ((units.filterMap (fun u => (cur.find? (fun r => r.unit_id == u.id)).map
            (unitBillFor readings tEU tWU tA y m tE tW tM u))).foldl saveUnitBill st,
         acc ++ units.filterMap (fun u => (cur.find? (fun r => r.unit_id == u.id)).map
            (unitBillFor readings tEU tWU tA y m tE tW tM u))) := by
  induction units generalizing st acc with
  | nil => simp
  | cons u us ih =>
      cases h : cur.find? (fun r => r.unit_id == u.id) with
      | none => simp [List.foldl_cons, billStep, h, ih]
      | some c => simp [List.foldl_cons, billStep, h, ih]

/-- calculateAndSaveBills, split into its pure bill list and its two writes. -/
lemma calculateAndSaveBills_eq (s : DBState) (y m : ℤ) (tE tW tM : ℚ) :
    calculateAndSaveBills s y m tE tW tM
      = ((billsFor s.units s.meter_readings y m tE tW tM).foldl saveUnitBill
           (saveMonthlyBill s ⟨y, m, tE, tW, tM⟩),
         billsFor s.units s.meter_readings y m tE tW tM) := by
  unfold calculateAndSaveBills billsFor getUnits
  simp only [saveMonthlyBill_units, saveMonthlyBill_meter_readings]
  rw [foldl_billStep]
  simp

lemma calculateAndSaveBills_snd (s : DBState) (y m : ℤ) (tE tW tM : ℚ) :
    (calculateAndSaveBills s y m tE tW tM).2
      = billsFor s.units s.meter_readings y m tE tW tM := by
  rw [calculateAndSaveBills_eq]

lemma calculateAndSaveBills_fst_units (s : DBState) (y m : ℤ) (tE tW tM : ℚ) :
    (calculateAndSaveBills s y m tE tW tM).1.units = s.units := by
  rw [calculateAndSaveBills_eq]
  simp [foldl_saveUnitBill_units]

lemma calculateAndSaveBills_fst_meter_readings (s : DBState) (y m : ℤ) (tE tW tM : ℚ) :
    (calculateAndSaveBills s y m tE tW tM).1.meter_readings = s.meter_readings := by
  rw [calculateAndSaveBills_eq]
  simp [foldl_saveUnitBill_meter_readings]

lemma calculateAndSaveBills_fst_monthly_bills (s : DBState) (y m : ℤ) (tE tW tM : ℚ) :
    (calculateAndSaveBills s y m tE tW tM).1.monthly_bills
      = upsertMonthlyBill s.monthly_bills ⟨y, m, tE, tW, tM⟩ := by
  rw [calculateAndSaveBills_eq]
  simp [foldl_saveUnitBill_monthly_bills]

lemma calculateAndSaveBills_fst_unit_bills (s : DBState) (y m : ℤ) (tE tW tM : ℚ) :
    (calculateAndSaveBills s y m tE tW tM).1.unit_bills
      = (billsFor s.units s.meter_readings y m tE tW tM).foldl upsertUnitBill
          s.unit_bills := by
  rw [calculateAndSaveBills_eq]
  simp [foldl_saveUnitBill_unit_bills]

/-! Sums: the usage-accumulating loops as sums over the billed pairs. -/

lemma foldl_skip_sum (F : ℚ → Unit → ℚ) (g : Unit → Option MeterReading)
    (val : Unit → MeterReading → ℚ)
    (hF : ∀ t u, F t u = match g u with | none => t | some c => t + val u c)
    (us : List Unit) (a : ℚ) :
    us.foldl F a
      = a + ((us.filterMap (fun u => (g u).map (fun c => (u, c)))).map
          (fun p => val p.1 p.2)).sum := by
  induction us generalizing a with
  | nil => simp
  | cons u us ih =>
      cases hg : g u with
      | none => simp [List.foldl_cons, hF, hg, ih]
      | some c => simp [List.foldl_cons, hF, hg, ih, add_assoc]

lemma calculateTotalElectricityUsage_eq (readings : List MeterReading) (units : List Unit)
    (cur : List MeterReading) (y m : ℤ) :
    calculateTotalElectricityUsage readings units cur y m
      = ((billedPairs units cur).map (fun p =>
          calculateElectricityUsage p.2 (getPreviousMonthReading readings p.1.id y m))).sum := by
  unfold calculateTotalElectricityUsage billedPairs
  refine (foldl_skip_sum _ (fun u => cur.find? (fun r => r.unit_id == u.id))
      (fun u c => calculateElectricityUsage c (getPreviousMonthReading readings u.id y m))
      ?_ units 0).trans (zero_add _)
  intro t u
  cases hg : cur.find? (fun r => r.unit_id == u.id) <;> simp [hg]

lemma calculateTotalWaterUsage_eq (readings : List MeterReading) (units : List Unit)
    (cur : List MeterReading) (y m : ℤ) :
    calculateTotalWaterUsage readings units cur y m
      = ((billedPairs units cur).map (fun p =>
          calculateWaterUsage p.2 (getPreviousMonthReading readings p.1.id y m))).sum := by
  unfold calculateTotalWaterUsage billedPairs
  refine (foldl_skip_sum _ (fun u => cur.find? (fun r => r.unit_id == u.id))
      (fun u c => calculateWaterUsage c (getPreviousMonthReading readings u.id y m))
      ?_ units 0).trans (zero_add _)
  intro t u
  cases hg : cur.find? (fun r => r.unit_id == u.id) <;> simp [hg]

lemma totalAreaOf_eq (units : List Unit) :
    totalAreaOf units = (units.map Unit.area).sum := by
  unfold totalAreaOf
  suffices h : ∀ (us : List Unit) (a : ℚ),
      us.foldl (fun sum u => sum + u.area) a = a + (us.map Unit.area).sum by
    simpa using h units 0
  intro us
  induction us with
  | nil => intro a; simp
  | cons u us ih => intro a; simp [List.foldl_cons, ih, add_assoc]

lemma sum_div_mul (L : List ℚ) (T c : ℚ) (hT : T ≠ 0) (hsum : L.sum = T) :
    (L.map (fun x => x / T * c)).sum = c := by
  have h1 : L.map (fun x => x / T * c) = L.map (fun x => x * (c / T)) := by
    refine List.map_congr_left fun x _ => ?_
    rw [div_mul_eq_mul_div, mul_div_assoc]
  rw [h1, List.sum_map_mul_right, List.map_id', hsum, mul_comm,
    div_mul_cancel₀ c hT]

lemma billedPairs_fst (units : List Unit) (cur : List MeterReading)
    (hall : ∀ u ∈ units, (cur.find? (fun r => r.unit_id == u.id)).isSome) :
    (billedPairs units cur).map Prod.fst = units := by
  induction units with
  | nil => simp [billedPairs]
  | cons u us ih =>
      obtain ⟨c, hc⟩ := Option.isSome_iff_exists.mp (hall u (by simp))
      rw [show billedPairs (u :: us) cur = (u, c) :: billedPairs us cur from by
        simp [billedPairs, List.filterMap_cons, hc]]
      simp only [List.map_cons]
      rw [ih (fun v hv => hall v (by simp [hv]))]

/-! Upsert algebra, used for idempotence of recalculation. -/

lemma find?_filter_not_append {α : Type} (p : α → Bool) (l : List α) (b : α)
    (hb : p b = true) :
    (l.filter (fun x => !(p x)) ++ [b]).find? p = some b := by
  induction l with
  | nil => simp [List.find?, hb]
  | cons x l ih => cases h : p x <;> simp [List.filter_cons, h, List.find?_cons, ih]

lemma upsertMonthlyBill_idem (M : List MonthlyBill) (b : MonthlyBill) :
    upsertMonthlyBill (upsertMonthlyBill M b) b = upsertMonthlyBill M b := by
  unfold upsertMonthlyBill
  rw [List.filter_append, List.filter_filter]
  have h1 : List.filter (fun x => !(x.year == b.year && x.month == b.month)) [b] = [] := by
    simp
  rw [h1, List.append_nil]
  congr 1
  refine List.filter_congr fun x _ => ?_
  rw [Bool.and_self]

lemma filter_self_keys_nil (B : List UnitBill) :
    B.filter (fun x => !(B.any (fun b =>
      x.unit_id == b.unit_id && x.year == b.year && x.month == b.month))) = [] := by
  rw [List.filter_eq_nil_iff]
  intro x hx
  simp only [Bool.not_eq_true', Bool.not_eq_false]
  exact List.any_eq_true.mpr ⟨x, hx, by simp⟩

lemma foldl_upsertUnitBill_eq (B : List UnitBill) (U : List UnitBill)
    (hB : (B.map UnitBill.unit_id).Nodup) :
    B.foldl upsertUnitBill U
      = U.filter (fun x => !(B.any (fun b =>
          x.unit_id == b.unit_id && x.year == b.year && x.month == b.month))) ++ B := by
  induction B generalizing U with
  | nil => simp
  | cons b B ih =>
      obtain ⟨hb, hB'⟩ := List.nodup_cons.mp hB
      rw [List.foldl_cons, ih (upsertUnitBill U b) hB']
      rw [show upsertUnitBill U b = U.filter (fun x =>
        !(x.unit_id == b.unit_id && x.year == b.year && x.month == b.month)) ++ [b] from rfl]
      rw [List.filter_append, List.filter_filter]
      have h1 : List.filter (fun x => !(B.any (fun b' =>
          x.unit_id == b'.unit_id && x.year == b'.year && x.month == b'.month))) [b] = [b] := by
        simp only [List.filter_cons, List.filter_nil]
        rw [if_pos]
        simp only [Bool.not_eq_true', List.any_eq_false]
        intro b' hb'
        have : b.unit_id ≠ b'.unit_id := fun h => hb (h ▸ List.mem_map_of_mem UnitBill.unit_id hb')
        simp [this]
      rw [h1]
      rw [List.append_assoc, List.singleton_append]
      congr 1
      refine List.filter_congr fun x _ => ?_
      simp only [List.any_cons, Bool.not_or]
      rw [Bool.and_comm]

lemma foldl_upsertUnitBill_idem (B : List UnitBill) (U : List UnitBill)
    (hB : (B.map UnitBill.unit_id).Nodup) :
    B.foldl upsertUnitBill (B.foldl upsertUnitBill U) = B.foldl upsertUnitBill U := by
  rw [foldl_upsertUnitBill_eq B U hB, foldl_upsertUnitBill_eq B _ hB]
  rw [List.filter_append, filter_self_keys_nil, List.append_nil, List.filter_filter]
  congr 1
  refine List.filter_congr fun x _ => ?_
  rw [Bool.and_self]

/-! The unit ids of the produced bills form a sublist of the registry's ids. -/

lemma filterMap_bills_unit_id_sublist (readings cur : List MeterReading)
    (tEU tWU tA : ℚ) (y m : ℤ) (tE tW tM : ℚ) (units : List Unit) :
    ((units.filterMap (fun u => (cur.find? (fun r => r.unit_id == u.id)).map
        (unitBillFor readings tEU tWU tA y m tE tW tM u))).map UnitBill.unit_id).Sublist
      (units.map Unit.id) := by
  induction units with
  | nil => simp
  | cons u us ih =>
      cases h : cur.find? (fun r => r.unit_id == u.id) with
      | none =>
          simp only [List.filterMap_cons, h, Option.map_none', List.map_cons]
          exact ih.cons u.id
      | some c =>
          simp only [List.filterMap_cons, h, Option.map_some', List.map_cons]
          exact ih.cons₂ u.id

lemma billsFor_unit_id_sublist (units : List Unit) (readings : List MeterReading)
    (y m : ℤ) (tE tW tM : ℚ) :
    ((billsFor units readings y m tE tW tM).map UnitBill.unit_id).Sublist
      (units.map Unit.id) := by
  unfold billsFor
  exact filterMap_bills_unit_id_sublist _ _ _ _ _ _ _ _ _ _ _

lemma billsFor_nil_of_none (units : List Unit) (readings : List MeterReading)
    (y m : ℤ) (tE tW tM : ℚ)
    (h : ∀ u ∈ units,
      (getMeterReadings readings y m).find? (fun r => r.unit_id == u.id) = none) :
    billsFor units readings y m tE tW tM = [] := by
  unfold billsFor
  simp only []
  rw [List.filterMap_eq_nil_iff]
  intro u hu
  rw [h u hu]
  rfl

/-! Concrete evaluations on the sample database and the two small databases. -/

lemma tEU_sample : calculateTotalElectricityUsage sampleState.meter_readings sampleState.units
    (getMeterReadings sampleState.meter_readings 2024 2) 2024 2 = 299 := by
  simp [calculateTotalElectricityUsage, getMeterReadings, getPreviousMonthReading, sampleState,
    unitA, unitB, mrA1, mrB1, mrA2, mrB2, calculateElectricityUsage]
  norm_num

lemma tWU_sample : calculateTotalWaterUsage sampleState.meter_readings sampleState.units
    (getMeterReadings sampleState.meter_readings 2024 2) 2024 2 = 183/25 := by
  simp [calculateTotalWaterUsage, getMeterReadings, getPreviousMonthReading, sampleState,
    unitA, unitB, mrA1, mrB1, mrA2, mrB2, calculateWaterUsage]
  norm_num

lemma tA_sample : totalAreaOf sampleState.units = 180 := by
  norm_num [totalAreaOf, sampleState, unitA, unitB]

lemma billsFor_sample : billsFor sampleState.units sampleState.meter_readings 2024 2
    47440 17440 223630 =
    [ ⟨"601A", 2024, 2, 31732, 8720, 74543, 114996⟩,
      ⟨"601B", 2024, 2, 15708, 8720, 149087, 173514⟩ ] := by
  unfold billsFor
  simp only []
  rw [tEU_sample, tWU_sample, tA_sample]
  simp [sampleState, unitA, unitB, mrA1, mrB1, mrA2, mrB2, getMeterReadings,
    unitBillFor, preElectricityCost, preWaterCost, preManagementCost,
    getPreviousMonthReading, calculateElectricityUsage, calculateWaterUsage, jround]
  norm_num [Int.floor_eq_iff]

lemma tEU_one : calculateTotalElectricityUsage oneUnitState.meter_readings oneUnitState.units
    (getMeterReadings oneUnitState.meter_readings 2024 2) 2024 2 = 1 := by
  simp [calculateTotalElectricityUsage, getMeterReadings, getPreviousMonthReading, oneUnitState,
    calculateElectricityUsage]

lemma tWU_one : calculateTotalWaterUsage oneUnitState.meter_readings oneUnitState.units
    (getMeterReadings oneUnitState.meter_readings 2024 2) 2024 2 = 0 := by
  simp [calculateTotalWaterUsage, getMeterReadings, getPreviousMonthReading, oneUnitState,
    calculateWaterUsage]

lemma tA_one : totalAreaOf oneUnitState.units = 1 := by
  norm_num [totalAreaOf, oneUnitState]

lemma billsFor_one : billsFor oneUnitState.units oneUnitState.meter_readings 2024 2
    (2/5) 0 (2/5) = [⟨"U1", 2024, 2, 0, 0, 0, 1⟩] := by
  unfold billsFor
  simp only []
  rw [tEU_one, tWU_one, tA_one]
  simp [oneUnitState, getMeterReadings, unitBillFor, preElectricityCost, preWaterCost,
    preManagementCost, getPreviousMonthReading, calculateElectricityUsage,
    calculateWaterUsage, jround]
  norm_num [Int.floor_eq_iff]

lemma prevA_sample : getPreviousMonthReading sampleState.meter_readings "601A" 2024 2
    = some mrA1 := by
  simp [getPreviousMonthReading, sampleState, mrA1, mrB1, mrA2, mrB2]

lemma findA_sample : (getMeterReadings sampleState.meter_readings 2024 2).find?
    (fun r => r.unit_id == unitA.id) = some mrA2 := by
  simp [getMeterReadings, sampleState, unitA, mrA1, mrB1, mrA2, mrB2]

lemma findB_sample : (getMeterReadings sampleState.meter_readings 2024 2).find?
    (fun r => r.unit_id == unitB.id) = some mrB2 := by
  simp [getMeterReadings, sampleState, unitB, mrA1, mrB1, mrA2, mrB2]

lemma tEU_first : calculateTotalElectricityUsage firstReadingState.meter_readings
    firstReadingState.units (getMeterReadings firstReadingState.meter_readings 2024 2)
    2024 2 = 0 := by
  simp [calculateTotalElectricityUsage, getMeterReadings, getPreviousMonthReading,
    firstReadingState, calculateElectricityUsage]

lemma tA_first : totalAreaOf firstReadingState.units = 2 := by
  norm_num [totalAreaOf, firstReadingState]

lemma billedPairs_first : billedPairs firstReadingState.units
    (getMeterReadings firstReadingState.meter_readings 2024 2)
    = [(⟨"U1", "U1", 1⟩, ⟨"U1", 2024, 2, 5, 5⟩)] := by
  simp [billedPairs, getMeterReadings, firstReadingState]

lemma billsFor_first : billsFor firstReadingState.units firstReadingState.meter_readings
    2024 2 100 100 100 = [⟨"U1", 2024, 2, 0, 0, 50, 50⟩] := by
  unfold billsFor
  simp only []
  rw [tEU_first, tA_first]
  simp [firstReadingState, getMeterReadings, unitBillFor, preElectricityCost, preWaterCost,
    preManagementCost, getPreviousMonthReading, calculateElectricityUsage,
    calculateWaterUsage, jround, calculateTotalWaterUsage]
  norm_num [Int.floor_eq_iff]

lemma jround_mono {a b : ℚ} (h : a ≤ b) : jround a ≤ jround b :=
  Int.floor_mono (add_le_add_right h _)

/-! The claims. -/

/-- Claim C1, counterexample: on a one-unit database with totals
electricity 0.4, water 0, management 0.4, calculateAndSaveBills persists the
single bill (electricity_cost 0, water_cost 0, management_cost 0,
total_cost 1): the persisted total_cost (1) is not the sum of the three
independently rounded components (0 + 0 + 0), refuting the claimed
per-component rounding of total_cost. -/
theorem c1_total_cost_counterexample :
    (calculateAndSaveBills oneUnitState 2024 2 (2/5) 0 (2/5)).2
        = [⟨"U1", 2024, 2, 0, 0, 0, 1⟩]
    ∧ (1 : ℤ) ≠ 0 + 0 + 0 := by
  constructor
  · rw [calculateAndSaveBills_snd]
    exact billsFor_one
  · decide

/-- Claim C1, amended: for every unit billed by calculateAndSaveBills, the
three component columns are each rounded independently
(`electricity_cost = round(e)`, `water_cost = round(w)`,
`management_cost = round(m)`), but the persisted `total_cost` is the single
rounding `round(e + w + m)` of the sum of the unrounded components — not
`round(e) + round(w) + round(m)`. -/
theorem c1_total_cost_amended (s : DBState) (y m : ℤ) (tE tW tM : ℚ) (b : UnitBill)
    (hb : b ∈ (calculateAndSaveBills s y m tE tW tM).2) :
    ∃ u c, u ∈ s.units
      ∧ (getMeterReadings s.meter_readings y m).find? (fun r => r.unit_id == u.id) = some c
      ∧ b.electricity_cost = jround (preElectricityCost s.meter_readings
          (calculateTotalElectricityUsage s.meter_readings s.units
            (getMeterReadings s.meter_readings y m) y m) y m tE u c)
      ∧ b.water_cost = jround (preWaterCost s.meter_readings
          (calculateTotalWaterUsage s.meter_readings s.units
            (getMeterReadings s.meter_readings y m) y m) y m tW u c)
      ∧ b.management_cost = jround (preManagementCost (totalAreaOf s.units) tM u)
      ∧ b.total_cost = jround (preElectricityCost s.meter_readings
          (calculateTotalElectricityUsage s.meter_readings s.units
            (getMeterReadings s.meter_readings y m) y m) y m tE u c
          + preWaterCost s.meter_readings
              (calculateTotalWaterUsage s.meter_readings s.units
                (getMeterReadings s.meter_readings y m) y m) y m tW u c
          + preManagementCost (totalAreaOf s.units) tM u) := by
  rw [calculateAndSaveBills_snd] at hb
  unfold billsFor at hb
  simp only [] at hb
  obtain ⟨u, hu, hmap⟩ := List.mem_filterMap.mp hb
  cases hc : (getMeterReadings s.meter_readings y m).find? (fun r => r.unit_id == u.id) with
  | none => rw [hc] at hmap; simp at hmap
  | some c =>
      rw [hc] at hmap
      simp only [Option.map_some', Option.some.injEq] at hmap
      exact ⟨u, c, hu, hc, by rw [← hmap]; rfl, by rw [← hmap]; rfl,
        by rw [← hmap]; rfl, by rw [← hmap]; rfl⟩

/-- Claim C1, witness for the amended claim at the one-unit database. -/
theorem c1_total_cost_amended_witness :
    ∃ u c, u ∈ oneUnitState.units
      ∧ (getMeterReadings oneUnitState.meter_readings 2024 2).find?
          (fun r => r.unit_id == u.id) = some c
      ∧ (⟨"U1", 2024, 2, 0, 0, 0, 1⟩ : UnitBill).electricity_cost
          = jround (preElectricityCost oneUnitState.meter_readings
              (calculateTotalElectricityUsage oneUnitState.meter_readings oneUnitState.units
                (getMeterReadings oneUnitState.meter_readings 2024 2) 2024 2) 2024 2 (2/5) u c)
      ∧ (⟨"U1", 2024, 2, 0, 0, 0, 1⟩ : UnitBill).water_cost
          = jround (preWaterCost oneUnitState.meter_readings
              (calculateTotalWaterUsage oneUnitState.meter_readings oneUnitState.units
                (getMeterReadings oneUnitState.meter_readings 2024 2) 2024 2) 2024 2 0 u c)
      ∧ (⟨"U1", 2024, 2, 0, 0, 0, 1⟩ : UnitBill).management_cost
          = jround (preManagementCost (totalAreaOf oneUnitState.units) (2/5) u)
      ∧ (⟨"U1", 2024, 2, 0, 0, 0, 1⟩ : UnitBill).total_cost
          = jround (preElectricityCost oneUnitState.meter_readings
              (calculateTotalElectricityUsage oneUnitState.meter_readings oneUnitState.units
                (getMeterReadings oneUnitState.meter_readings 2024 2) 2024 2) 2024 2 (2/5) u c
              + preWaterCost oneUnitState.meter_readings
                  (calculateTotalWaterUsage oneUnitState.meter_readings oneUnitState.units
                    (getMeterReadings oneUnitState.meter_readings 2024 2) 2024 2) 2024 2 0 u c
              + preManagementCost (totalAreaOf oneUnitState.units) (2/5) u) :=
  c1_total_cost_amended oneUnitState 2024 2 (2/5) 0 (2/5) ⟨"U1", 2024, 2, 0, 0, 0, 1⟩
    (by rw [calculateAndSaveBills_snd, billsFor_one]; exact List.mem_singleton.mpr rfl)

/-- Claim C2, counterexample: on the spec's own example data the engine
persists electricity_cost 31732 for 601A and 15708 for 601B, not the claimed
31727 and 15713. -/
theorem c2_example_counterexample :
    (calculateAndSaveBills sampleState 2024 2 47440 17440 223630).2.map
        UnitBill.electricity_cost = [31732, 15708]
    ∧ ([31732, 15708] : List ℤ) ≠ [31727, 15713] := by
  constructor
  · rw [calculateAndSaveBills_snd, billsFor_sample]
    rfl
  · decide

/-- Claim C2, amended: on the spec's example inputs calculateAndSaveBills
produces electricity_cost 31732 for A and 15708 for B (summing to 47440),
water_cost exactly 8720 for each, and management_cost 74543 for A and
149087 for B (the spec's figures 31727/15713 are arithmetically wrong:
round(200/299 × 47440) = 31732 and round(99/299 × 47440) = 15708). -/
theorem c2_example_amended :
    (calculateAndSaveBills sampleState 2024 2 47440 17440 223630).2
        = [ ⟨"601A", 2024, 2, 31732, 8720, 74543, 114996⟩,
            ⟨"601B", 2024, 2, 15708, 8720, 149087, 173514⟩ ]
    ∧ (31732 : ℤ) + 15708 = 47440 := by
  constructor
  · rw [calculateAndSaveBills_snd]
    exact billsFor_sample
  · decide

/-- Claim C4: the previous reading used for usage is the one of the
immediately preceding calendar month (December of year−1 when month = 1), the
usage is max(0, current − previous) for each of electricity and water, and it
is 0 whenever no previous-month reading exists. -/
theorem c4_usage_previous_month (readings : List MeterReading) (uid : String)
    (y m : ℤ) (c : MeterReading) :
    getPreviousMonthReading readings uid y m
        = readings.find? (fun r => r.unit_id == uid
            && r.year == (specPrevPeriod y m).1 && r.month == (specPrevPeriod y m).2)
    ∧ (∀ p, getPreviousMonthReading readings uid y m = some p →
        calculateElectricityUsage c (getPreviousMonthReading readings uid y m)
            = max 0 (c.electricity_reading - p.electricity_reading)
          ∧ calculateWaterUsage c (getPreviousMonthReading readings uid y m)
            = max 0 (c.water_reading - p.water_reading))
    ∧ (getPreviousMonthReading readings uid y m = none →
        calculateElectricityUsage c (getPreviousMonthReading readings uid y m) = 0
          ∧ calculateWaterUsage c (getPreviousMonthReading readings uid y m) = 0) := by
  refine ⟨?_, ?_, ?_⟩
  · unfold getPreviousMonthReading specPrevPeriod
    by_cases hm : m = 1
    · subst hm
      norm_num
    · have h0 : (m - 1 == 0) = false := by
        rw [beq_eq_false_iff_ne]
        omega
      simp [h0, hm]
  · intro p hp
    rw [hp]
    exact ⟨rfl, rfl⟩
  · intro hp
    rw [hp]
    exact ⟨rfl, rfl⟩

/-- Claim C4, witness: unit 601A in February 2024 of the sample database; the
previous reading is the January one and the usage deltas are the clamped
differences. -/
theorem c4_usage_previous_month_witness :
    getPreviousMonthReading sampleState.meter_readings "601A" 2024 2
        = sampleState.meter_readings.find? (fun r => r.unit_id == "601A"
            && r.year == (specPrevPeriod 2024 2).1 && r.month == (specPrevPeriod 2024 2).2)
    ∧ (calculateElectricityUsage mrA2 (getPreviousMonthReading sampleState.meter_readings "601A" 2024 2)
          = max 0 (mrA2.electricity_reading - mrA1.electricity_reading)
        ∧ calculateWaterUsage mrA2 (getPreviousMonthReading sampleState.meter_readings "601A" 2024 2)
          = max 0 (mrA2.water_reading - mrA1.water_reading)) :=
  ⟨(c4_usage_previous_month sampleState.meter_readings "601A" 2024 2 mrA2).1,
   (c4_usage_previous_month sampleState.meter_readings "601A" 2024 2 mrA2).2.1 mrA1 prevA_sample⟩

/-- Claim C8: whenever a unit has a current-month reading, getUsageDetails
returns a record whose electricityUsage and waterUsage are computed by exactly
the clamping and zero-default rules of the billing step — the same
calculateElectricityUsage / calculateWaterUsage applied to the same current
and previous readings — so for any totals the billed costs are the rounded
proportional shares of the displayed usage. -/
theorem c8_display_matches_billing (s : DBState) (y m : ℤ) (u : Unit) (c : MeterReading)
    (hc : (getMeterReadings s.meter_readings y m).find? (fun r => r.unit_id == u.id) = some c) :
    ∃ d, getUsageDetails s u.id y m = some d
      ∧ d.electricityUsage
          = calculateElectricityUsage c (getPreviousMonthReading s.meter_readings u.id y m)
      ∧ d.waterUsage
          = calculateWaterUsage c (getPreviousMonthReading s.meter_readings u.id y m)
      ∧ ∀ tEU tWU tA tE tW tM : ℚ,
          (unitBillFor s.meter_readings tEU tWU tA y m tE tW tM u c).electricity_cost
              = jround (if 0 < tEU then d.electricityUsage / tEU * tE else 0)
            ∧ (unitBillFor s.meter_readings tEU tWU tA y m tE tW tM u c).water_cost
              = jround (if 0 < tWU then d.waterUsage / tWU * tW else 0) := by
  refine ⟨⟨c.electricity_reading,
      ((getPreviousMonthReading s.meter_readings u.id y m).map
        (fun p => p.electricity_reading)).getD 0,
      calculateElectricityUsage c (getPreviousMonthReading s.meter_readings u.id y m),
      c.water_reading,
      ((getPreviousMonthReading s.meter_readings u.id y m).map
        (fun p => p.water_reading)).getD 0,
      calculateWaterUsage c (getPreviousMonthReading s.meter_readings u.id y m)⟩,
    ?_, rfl, rfl, ?_⟩
  · unfold getUsageDetails
    rw [hc]
  · intro tEU tWU tA tE tW tM
    exact ⟨rfl, rfl⟩

/-- Claim C8, witness: unit 601A in February 2024 of the sample database. -/
theorem c8_display_matches_billing_witness :
    ∃ d, getUsageDetails sampleState unitA.id 2024 2 = some d
      ∧ d.electricityUsage
          = calculateElectricityUsage mrA2
              (getPreviousMonthReading sampleState.meter_readings unitA.id 2024 2)
      ∧ d.waterUsage
          = calculateWaterUsage mrA2
              (getPreviousMonthReading sampleState.meter_readings unitA.id 2024 2)
      ∧ ∀ tEU tWU tA tE tW tM : ℚ,
          (unitBillFor sampleState.meter_readings tEU tWU tA 2024 2 tE tW tM unitA mrA2).electricity_cost
              = jround (if 0 < tEU then d.electricityUsage / tEU * tE else 0)
            ∧ (unitBillFor sampleState.meter_readings tEU tWU tA 2024 2 tE tW tM unitA mrA2).water_cost
              = jround (if 0 < tWU then d.waterUsage / tWU * tW else 0) :=
  c8_display_matches_billing sampleState 2024 2 unitA mrA2 findA_sample

/-- Claim C9: when the meter-reading set of the requested period is empty,
both calculation handlers report an error message (never the success message),
set no bill list, and leave the whole database state unchanged — the
Allocation Engine is never reached. -/
theorem c9_empty_readings_no_write (s : DBState) (y m : ℤ) (e w g f : Option ℚ)
    (h : getMeterReadings s.meter_readings y m = []) :
    ((handleCalculate s y m e w g).1 = s
      ∧ (handleCalculate s y m e w g).2.1 ≠ CalcMessage.calcSuccess
      ∧ (handleCalculate s y m e w g).2.2 = none)
    ∧ ((handleCalculateBills s y m f e w).1 = s
      ∧ (handleCalculateBills s y m f e w).2.1 ≠ CalcMessage.calcSuccess
      ∧ (handleCalculateBills s y m f e w).2.2 = none) := by
  constructor
  · unfold handleCalculate
    split
    · split
      · exact ⟨rfl, by simp, rfl⟩
      · simp [h]
    · exact ⟨rfl, by simp, rfl⟩
  · unfold handleCalculateBills
    simp only []
    split
    · split
      · exact ⟨rfl, by simp, rfl⟩
      · split
        · exact ⟨rfl, by simp, rfl⟩
        · simp [h]
    · exact ⟨rfl, by simp, rfl⟩

/-- Claim C9, witness: requesting March 2024 on a database whose only reading
is from February 2024. -/
theorem c9_empty_readings_no_write_witness :
    ((handleCalculate firstReadingState 2024 3 (some 10) (some 10) (some 10)).1
          = firstReadingState
      ∧ (handleCalculate firstReadingState 2024 3 (some 10) (some 10) (some 10)).2.1
          ≠ CalcMessage.calcSuccess
      ∧ (handleCalculate firstReadingState 2024 3 (some 10) (some 10) (some 10)).2.2 = none)
    ∧ ((handleCalculateBills firstReadingState 2024 3 (some 10) (some 10) (some 10)).1
          = firstReadingState
      ∧ (handleCalculateBills firstReadingState 2024 3 (some 10) (some 10) (some 10)).2.1
          ≠ CalcMessage.calcSuccess
      ∧ (handleCalculateBills firstReadingState 2024 3 (some 10) (some 10) (some 10)).2.2
          = none) :=
  c9_empty_readings_no_write firstReadingState 2024 3 (some 10) (some 10) (some 10) (some 10)
    (by simp [getMeterReadings, firstReadingState])

/-- Claim C10: every call of calculateAndSaveBills unconditionally upserts the
MonthlyBill row for (year, month) with the three given totals — afterwards
getMonthlyBill returns exactly those totals — and when no registered unit has
a current-month reading the call still performs that write while returning an
empty bill list and leaving unit_bills unchanged. -/
theorem c10_monthly_bill_always_written (s : DBState) (y m : ℤ) (tE tW tM : ℚ) :
    (calculateAndSaveBills s y m tE tW tM).1.monthly_bills
        = upsertMonthlyBill s.monthly_bills ⟨y, m, tE, tW, tM⟩
    ∧ getMonthlyBill (calculateAndSaveBills s y m tE tW tM).1.monthly_bills y m
        = some ⟨y, m, tE, tW, tM⟩
    ∧ ((∀ u ∈ s.units,
          (getMeterReadings s.meter_readings y m).find? (fun r => r.unit_id == u.id) = none) →
        (calculateAndSaveBills s y m tE tW tM).2 = []
          ∧ (calculateAndSaveBills s y m tE tW tM).1.unit_bills = s.unit_bills) := by
  refine ⟨calculateAndSaveBills_fst_monthly_bills s y m tE tW tM, ?_, ?_⟩
  · rw [calculateAndSaveBills_fst_monthly_bills]
    unfold getMonthlyBill upsertMonthlyBill
    exact find?_filter_not_append (fun b : MonthlyBill => b.year == y && b.month == m)
      s.monthly_bills ⟨y, m, tE, tW, tM⟩ (by simp)
  · intro hall
    have hnil := billsFor_nil_of_none s.units s.meter_readings y m tE tW tM hall
    constructor
    · rw [calculateAndSaveBills_snd]
      exact hnil
    · rw [calculateAndSaveBills_fst_unit_bills, hnil]
      rfl

/-- Claim C10, witness: requesting March 2024 (a month with no readings) on
the two-unit database still writes the MonthlyBill while producing no bill. -/
theorem c10_monthly_bill_always_written_witness :
    (calculateAndSaveBills firstReadingState 2024 3 10 20 30).1.monthly_bills
        = upsertMonthlyBill firstReadingState.monthly_bills ⟨2024, 3, 10, 20, 30⟩
    ∧ getMonthlyBill (calculateAndSaveBills firstReadingState 2024 3 10 20 30).1.monthly_bills
        2024 3 = some ⟨2024, 3, 10, 20, 30⟩
    ∧ ((calculateAndSaveBills firstReadingState 2024 3 10 20 30).2 = []
        ∧ (calculateAndSaveBills firstReadingState 2024 3 10 20 30).1.unit_bills
            = firstReadingState.unit_bills) :=
  ⟨(c10_monthly_bill_always_written firstReadingState 2024 3 10 20 30).1,
   (c10_monthly_bill_always_written firstReadingState 2024 3 10 20 30).2.1,
   (c10_monthly_bill_always_written firstReadingState 2024 3 10 20 30).2.2
     (by intro u hu; simp [getMeterReadings, firstReadingState])⟩

/-- Claim C5: calculateAndSaveBills emits exactly one bill per registered unit
with a current-month reading (the output is the filterMap of the registry over
the current readings), no bill ever belongs to a registered unit without a
current-month reading, and a billed unit with no prior-month reading gets
electricity_cost 0 and water_cost 0 but the area-proportional
management_cost. -/
theorem c5_bill_per_unit_with_reading (s : DBState) (y m : ℤ) (tE tW tM : ℚ) :
    (calculateAndSaveBills s y m tE tW tM).2
        = s.units.filterMap (fun u =>
            ((getMeterReadings s.meter_readings y m).find? (fun r => r.unit_id == u.id)).map
              (unitBillFor s.meter_readings
                (calculateTotalElectricityUsage s.meter_readings s.units
                  (getMeterReadings s.meter_readings y m) y m)
                (calculateTotalWaterUsage s.meter_readings s.units
                  (getMeterReadings s.meter_readings y m) y m)
                (totalAreaOf s.units) y m tE tW tM u))
    ∧ (∀ u ∈ s.units,
        (getMeterReadings s.meter_readings y m).find? (fun r => r.unit_id == u.id) = none →
        ∀ b ∈ (calculateAndSaveBills s y m tE tW tM).2, b.unit_id ≠ u.id)
    ∧ (∀ u ∈ s.units, ∀ c,
        (getMeterReadings s.meter_readings y m).find? (fun r => r.unit_id == u.id) = some c →
        getPreviousMonthReading s.meter_readings u.id y m = none →
          (unitBillFor s.meter_readings
              (calculateTotalElectricityUsage s.meter_readings s.units
                (getMeterReadings s.meter_readings y m) y m)
              (calculateTotalWaterUsage s.meter_readings s.units
                (getMeterReadings s.meter_readings y m) y m)
              (totalAreaOf s.units) y m tE tW tM u c).electricity_cost = 0
          ∧ (unitBillFor s.meter_readings
              (calculateTotalElectricityUsage s.meter_readings s.units
                (getMeterReadings s.meter_readings y m) y m)
              (calculateTotalWaterUsage s.meter_readings s.units
                (getMeterReadings s.meter_readings y m) y m)
              (totalAreaOf s.units) y m tE tW tM u c).water_cost = 0
          ∧ (unitBillFor s.meter_readings
              (calculateTotalElectricityUsage s.meter_readings s.units
                (getMeterReadings s.meter_readings y m) y m)
              (calculateTotalWaterUsage s.meter_readings s.units
                (getMeterReadings s.meter_readings y m) y m)
              (totalAreaOf s.units) y m tE tW tM u c).management_cost
              = jround (preManagementCost (totalAreaOf s.units) tM u)) := by
  refine ⟨?_, ?_, ?_⟩
  · rw [calculateAndSaveBills_snd]
    rfl
  · intro u hu hnone b hb heq
    rw [calculateAndSaveBills_snd] at hb
    unfold billsFor at hb
    simp only [] at hb
    obtain ⟨v, hv, hvb⟩ := List.mem_filterMap.mp hb
    cases hfv : (getMeterReadings s.meter_readings y m).find? (fun r => r.unit_id == v.id) with
    | none => rw [hfv] at hvb; simp at hvb
    | some cv =>
        rw [hfv] at hvb
        simp only [Option.map_some', Option.some.injEq] at hvb
        have hid : v.id = u.id := by rw [← heq, ← hvb]; rfl
        rw [hid] at hfv
        rw [hnone] at hfv
        exact Option.noConfusion hfv
  · intro u hu c hc hprev
    refine ⟨?_, ?_, rfl⟩
    · simp [unitBillFor, preElectricityCost, hprev, calculateElectricityUsage, jround]
      norm_num [Int.floor_eq_iff]
    · simp [unitBillFor, preWaterCost, hprev, calculateWaterUsage, jround]
      norm_num [Int.floor_eq_iff]

/-- Claim C5, witness: in the two-unit database where only U1 has a (first)
February 2024 reading, U1's bill has zero electricity and water cost but the
area share of the management cost, and the single emitted bill does not belong
to U2. -/
theorem c5_bill_per_unit_with_reading_witness :
    ((unitBillFor firstReadingState.meter_readings
        (calculateTotalElectricityUsage firstReadingState.meter_readings firstReadingState.units
          (getMeterReadings firstReadingState.meter_readings 2024 2) 2024 2)
        (calculateTotalWaterUsage firstReadingState.meter_readings firstReadingState.units
          (getMeterReadings firstReadingState.meter_readings 2024 2) 2024 2)
        (totalAreaOf firstReadingState.units) 2024 2 100 100 100
        ⟨"U1", "U1", 1⟩ ⟨"U1", 2024, 2, 5, 5⟩).electricity_cost = 0
      ∧ (unitBillFor firstReadingState.meter_readings
          (calculateTotalElectricityUsage firstReadingState.meter_readings firstReadingState.units
            (getMeterReadings firstReadingState.meter_readings 2024 2) 2024 2)
          (calculateTotalWaterUsage firstReadingState.meter_readings firstReadingState.units
            (getMeterReadings firstReadingState.meter_readings 2024 2) 2024 2)
          (totalAreaOf firstReadingState.units) 2024 2 100 100 100
          ⟨"U1", "U1", 1⟩ ⟨"U1", 2024, 2, 5, 5⟩).water_cost = 0
      ∧ (unitBillFor firstReadingState.meter_readings
          (calculateTotalElectricityUsage firstReadingState.meter_readings firstReadingState.units
            (getMeterReadings firstReadingState.meter_readings 2024 2) 2024 2)
          (calculateTotalWaterUsage firstReadingState.meter_readings firstReadingState.units
            (getMeterReadings firstReadingState.meter_readings 2024 2) 2024 2)
          (totalAreaOf firstReadingState.units) 2024 2 100 100 100
          ⟨"U1", "U1", 1⟩ ⟨"U1", 2024, 2, 5, 5⟩).management_cost
          = jround (preManagementCost (totalAreaOf firstReadingState.units) 100 ⟨"U1", "U1", 1⟩))
    ∧ (⟨"U1", 2024, 2, 0, 0, 50, 50⟩ : UnitBill).unit_id ≠ (⟨"U2", "U2", 1⟩ : Unit).id :=
  ⟨(c5_bill_per_unit_with_reading firstReadingState 2024 2 100 100 100).2.2
      ⟨"U1", "U1", 1⟩ (by simp [firstReadingState]) ⟨"U1", 2024, 2, 5, 5⟩
      (by simp [getMeterReadings, firstReadingState])
      (by simp [getPreviousMonthReading, firstReadingState]),
   (c5_bill_per_unit_with_reading firstReadingState 2024 2 100 100 100).2.1
      ⟨"U2", "U2", 1⟩ (by simp [firstReadingState])
      (by simp [getMeterReadings, firstReadingState])
      ⟨"U1", 2024, 2, 0, 0, 50, 50⟩
      (by rw [calculateAndSaveBills_snd, billsFor_first]; exact List.mem_singleton.mpr rfl)⟩

/-- Claim C6: management_cost is monotone in area — for two units billed in
the same run (same totals and total area), the one with the larger area never
receives a smaller rounded management_cost, given a non-negative management
total and positive total area. -/
theorem c6_management_cost_monotone (s : DBState) (y m : ℤ) (tE tW tM : ℚ)
    (hM : 0 ≤ tM) (hA : 0 < totalAreaOf s.units) (u v : Unit) (cu cv : MeterReading)
    (hu : u ∈ s.units) (hv : v ∈ s.units)
    (hcu : (getMeterReadings s.meter_readings y m).find? (fun r => r.unit_id == u.id) = some cu)
    (hcv : (getMeterReadings s.meter_readings y m).find? (fun r => r.unit_id == v.id) = some cv)
    (harea : u.area ≤ v.area) :
    unitBillFor s.meter_readings
        (calculateTotalElectricityUsage s.meter_readings s.units
          (getMeterReadings s.meter_readings y m) y m)
        (calculateTotalWaterUsage s.meter_readings s.units
          (getMeterReadings s.meter_readings y m) y m)
        (totalAreaOf s.units) y m tE tW tM u cu ∈ (calculateAndSaveBills s y m tE tW tM).2
    ∧ unitBillFor s.meter_readings
        (calculateTotalElectricityUsage s.meter_readings s.units
          (getMeterReadings s.meter_readings y m) y m)
        (calculateTotalWaterUsage s.meter_readings s.units
          (getMeterReadings s.meter_readings y m) y m)
        (totalAreaOf s.units) y m tE tW tM v cv ∈ (calculateAndSaveBills s y m tE tW tM).2
    ∧ (unitBillFor s.meter_readings
        (calculateTotalElectricityUsage s.meter_readings s.units
          (getMeterReadings s.meter_readings y m) y m)
        (calculateTotalWaterUsage s.meter_readings s.units
          (getMeterReadings s.meter_readings y m) y m)
        (totalAreaOf s.units) y m tE tW tM u cu).management_cost
      ≤ (unitBillFor s.meter_readings
          (calculateTotalElectricityUsage s.meter_readings s.units
            (getMeterReadings s.meter_readings y m) y m)
          (calculateTotalWaterUsage s.meter_readings s.units
            (getMeterReadings s.meter_readings y m) y m)
          (totalAreaOf s.units) y m tE tW tM v cv).management_cost := by
  refine ⟨?_, ?_, ?_⟩
  · rw [calculateAndSaveBills_snd]
    unfold billsFor
    simp only []
    exact List.mem_filterMap.mpr ⟨u, hu, by rw [hcu]; rfl⟩
  · rw [calculateAndSaveBills_snd]
    unfold billsFor
    simp only []
    exact List.mem_filterMap.mpr ⟨v, hv, by rw [hcv]; rfl⟩
  · show jround (preManagementCost (totalAreaOf s.units) tM u)
      ≤ jround (preManagementCost (totalAreaOf s.units) tM v)
    apply jround_mono
    unfold preManagementCost
    exact mul_le_mul_of_nonneg_right ((div_le_div_iff_of_pos_right hA).mpr harea) hM

/-- Claim C6, witness: in the sample database, 601A (area 60) receives at most
601B's (area 120) management_cost. -/
theorem c6_management_cost_monotone_witness :
    unitBillFor sampleState.meter_readings
        (calculateTotalElectricityUsage sampleState.meter_readings sampleState.units
          (getMeterReadings sampleState.meter_readings 2024 2) 2024 2)
        (calculateTotalWaterUsage sampleState.meter_readings sampleState.units
          (getMeterReadings sampleState.meter_readings 2024 2) 2024 2)
        (totalAreaOf sampleState.units) 2024 2 47440 17440 223630 unitA mrA2
        ∈ (calculateAndSaveBills sampleState 2024 2 47440 17440 223630).2
    ∧ unitBillFor sampleState.meter_readings
        (calculateTotalElectricityUsage sampleState.meter_readings sampleState.units
          (getMeterReadings sampleState.meter_readings 2024 2) 2024 2)
        (calculateTotalWaterUsage sampleState.meter_readings sampleState.units
          (getMeterReadings sampleState.meter_readings 2024 2) 2024 2)
        (totalAreaOf sampleState.units) 2024 2 47440 17440 223630 unitB mrB2
        ∈ (calculateAndSaveBills sampleState 2024 2 47440 17440 223630).2
    ∧ (unitBillFor sampleState.meter_readings
        (calculateTotalElectricityUsage sampleState.meter_readings sampleState.units
          (getMeterReadings sampleState.meter_readings 2024 2) 2024 2)
        (calculateTotalWaterUsage sampleState.meter_readings sampleState.units
          (getMeterReadings sampleState.meter_readings 2024 2) 2024 2)
        (totalAreaOf sampleState.units) 2024 2 47440 17440 223630 unitA mrA2).management_cost
      ≤ (unitBillFor sampleState.meter_readings
          (calculateTotalElectricityUsage sampleState.meter_readings sampleState.units
            (getMeterReadings sampleState.meter_readings 2024 2) 2024 2)
          (calculateTotalWaterUsage sampleState.meter_readings sampleState.units
            (getMeterReadings sampleState.meter_readings 2024 2) 2024 2)
          (totalAreaOf sampleState.units) 2024 2 47440 17440 223630 unitB mrB2).management_cost :=
  c6_management_cost_monotone sampleState 2024 2 47440 17440 223630
    (by norm_num) (by rw [tA_sample]; norm_num) unitA unitB mrA2 mrB2
    (by simp [sampleState]) (by simp [sampleState]) findA_sample findB_sample
    (by norm_num [unitA, unitB])

/-- Claim C7: calculateAndSaveBills is idempotent — rerunning it on its own
output state with the same period and totals returns the same bill list and
leaves the database state fixed, because the computation reads only units and
meter_readings, which its writes never touch.  Unit ids are assumed distinct,
as the units table's PRIMARY KEY guarantees. -/
theorem c7_recalculation_idempotent (s : DBState) (y m : ℤ) (tE tW tM : ℚ)
    (hids : (s.units.map Unit.id).Nodup) :
    (calculateAndSaveBills (calculateAndSaveBills s y m tE tW tM).1 y m tE tW tM).2
        = (calculateAndSaveBills s y m tE tW tM).2
    ∧ (calculateAndSaveBills (calculateAndSaveBills s y m tE tW tM).1 y m tE tW tM).1
        = (calculateAndSaveBills s y m tE tW tM).1 := by
  have hu := calculateAndSaveBills_fst_units s y m tE tW tM
  have hr := calculateAndSaveBills_fst_meter_readings s y m tE tW tM
  have hB : ((billsFor s.units s.meter_readings y m tE tW tM).map UnitBill.unit_id).Nodup :=
    (billsFor_unit_id_sublist s.units s.meter_readings y m tE tW tM).nodup hids
  constructor
  · rw [calculateAndSaveBills_snd, hu, hr, calculateAndSaveBills_snd]
  · apply DBState.ext
    · simp only [calculateAndSaveBills_fst_units]
    · simp only [calculateAndSaveBills_fst_meter_readings]
    · simp only [calculateAndSaveBills_fst_monthly_bills]
      exact upsertMonthlyBill_idem s.monthly_bills ⟨y, m, tE, tW, tM⟩
    · simp only [calculateAndSaveBills_fst_unit_bills, hu, hr]
      exact foldl_upsertUnitBill_idem _ s.unit_bills hB

/-- Claim C7, witness: recalculating February 2024 on the sample database is a
fixed point. -/
theorem c7_recalculation_idempotent_witness :
    (calculateAndSaveBills (calculateAndSaveBills sampleState 2024 2 47440 17440 223630).1
        2024 2 47440 17440 223630).2
        = (calculateAndSaveBills sampleState 2024 2 47440 17440 223630).2
    ∧ (calculateAndSaveBills (calculateAndSaveBills sampleState 2024 2 47440 17440 223630).1
        2024 2 47440 17440 223630).1
        = (calculateAndSaveBills sampleState 2024 2 47440 17440 223630).1 :=
  c7_recalculation_idempotent sampleState 2024 2 47440 17440 223630
    (by simp [sampleState, unitA, unitB])

/-- Claim C3, counterexample: in the two-unit database where only U1 has a
(first-ever) reading and the administrator enters 100 for every total, the sum
of the pre-rounding electricity costs over the billed units is 0 (total usage
is 0, so every per-unit cost takes the zero branch), not 100; and the sum of
the pre-rounding management costs over the billed units is 50 (the unbilled
unit's area still counts in totalArea), not 100. -/
theorem c3_sums_counterexample :
    ((billedPairs firstReadingState.units
        (getMeterReadings firstReadingState.meter_readings 2024 2)).map
        (fun p => preElectricityCost firstReadingState.meter_readings
          (calculateTotalElectricityUsage firstReadingState.meter_readings
            firstReadingState.units
            (getMeterReadings firstReadingState.meter_readings 2024 2) 2024 2)
          2024 2 100 p.1 p.2)).sum = 0
    ∧ (0 : ℚ) ≠ 100
    ∧ ((billedPairs firstReadingState.units
        (getMeterReadings firstReadingState.meter_readings 2024 2)).map
        (fun p => preManagementCost (totalAreaOf firstReadingState.units) 100 p.1)).sum = 50
    ∧ (50 : ℚ) ≠ 100 := by
  refine ⟨?_, by norm_num, ?_, by norm_num⟩
  · rw [billedPairs_first, tEU_first]
    simp [preElectricityCost]
  · rw [billedPairs_first, tA_first]
    norm_num [preManagementCost]

/-- Claim C3, amended: over the exact-rational model, when the total
electricity usage of the period is positive, the pre-rounding electricity
costs of the billed units sum to exactly the administrator-entered total
electricity cost, and likewise for water; the pre-rounding management costs of
the billed units sum to exactly the total management cost provided every
registered unit has a current-month reading and the total area is nonzero. -/
theorem c3_sums_amended (units : List Unit) (readings : List MeterReading)
    (y m : ℤ) (tE tW tM : ℚ) :
    (0 < calculateTotalElectricityUsage readings units (getMeterReadings readings y m) y m →
      ((billedPairs units (getMeterReadings readings y m)).map (fun p =>
          preElectricityCost readings
            (calculateTotalElectricityUsage readings units (getMeterReadings readings y m) y m)
            y m tE p.1 p.2)).sum = tE)
    ∧ (0 < calculateTotalWaterUsage readings units (getMeterReadings readings y m) y m →
      ((billedPairs units (getMeterReadings readings y m)).map (fun p =>
          preWaterCost readings
            (calculateTotalWaterUsage readings units (getMeterReadings readings y m) y m)
            y m tW p.1 p.2)).sum = tW)
    ∧ (totalAreaOf units ≠ 0 →
        (∀ u ∈ units,
          ((getMeterReadings readings y m).find? (fun r => r.unit_id == u.id)).isSome) →
        ((billedPairs units (getMeterReadings readings y m)).map (fun p =>
            preManagementCost (totalAreaOf units) tM p.1)).sum = tM) := by
  refine ⟨?_, ?_, ?_⟩
  · intro h
    have hmap : (billedPairs units (getMeterReadings readings y m)).map (fun p =>
        preElectricityCost readings
          (calculateTotalElectricityUsage readings units (getMeterReadings readings y m) y m)
          y m tE p.1 p.2)
        = ((billedPairs units (getMeterReadings readings y m)).map (fun p =>
            calculateElectricityUsage p.2 (getPreviousMonthReading readings p.1.id y m))).map
          (fun x => x / calculateTotalElectricityUsage readings units
            (getMeterReadings readings y m) y m * tE) := by
      rw [List.map_map]
      refine List.map_congr_left fun p _ => ?_
      simp only [preElectricityCost, Function.comp]
      rw [if_pos h]
    rw [hmap, sum_div_mul _ _ _ (ne_of_gt h)
      (calculateTotalElectricityUsage_eq readings units (getMeterReadings readings y m) y m).symm]
  · intro h
    have hmap : (billedPairs units (getMeterReadings readings y m)).map (fun p =>
        preWaterCost readings
          (calculateTotalWaterUsage readings units (getMeterReadings readings y m) y m)
          y m tW p.1 p.2)
        = ((billedPairs units (getMeterReadings readings y m)).map (fun p =>
            calculateWaterUsage p.2 (getPreviousMonthReading readings p.1.id y m))).map
          (fun x => x / calculateTotalWaterUsage readings units
            (getMeterReadings readings y m) y m * tW) := by
      rw [List.map_map]
      refine List.map_congr_left fun p _ => ?_
      simp only [preWaterCost, Function.comp]
      rw [if_pos h]
    rw [hmap, sum_div_mul _ _ _ (ne_of_gt h)
      (calculateTotalWaterUsage_eq readings units (getMeterReadings readings y m) y m).symm]
  · intro hA hall
    have h1 : (billedPairs units (getMeterReadings readings y m)).map (fun p =>
        preManagementCost (totalAreaOf units) tM p.1)
        = ((billedPairs units (getMeterReadings readings y m)).map Prod.fst).map
            (preManagementCost (totalAreaOf units) tM) := by
      rw [List.map_map]
      rfl
    rw [h1, billedPairs_fst units (getMeterReadings readings y m) hall]
    have h2 : units.map (preManagementCost (totalAreaOf units) tM)
        = (units.map Unit.area).map (fun x => x / totalAreaOf units * tM) := by
      rw [List.map_map]
      rfl
    rw [h2, sum_div_mul _ _ _ hA (totalAreaOf_eq units).symm]

/-- Claim C3, witness: on the sample database the pre-rounding sums reproduce
the entered totals 47440, 17440 and 223630 exactly. -/
theorem c3_sums_amended_witness :
    ((billedPairs sampleState.units
        (getMeterReadings sampleState.meter_readings 2024 2)).map
        (fun p => preElectricityCost sampleState.meter_readings
          (calculateTotalElectricityUsage sampleState.meter_readings sampleState.units
            (getMeterReadings sampleState.meter_readings 2024 2) 2024 2)
          2024 2 47440 p.1 p.2)).sum = 47440
    ∧ ((billedPairs sampleState.units
        (getMeterReadings sampleState.meter_readings 2024 2)).map
        (fun p => preWaterCost sampleState.meter_readings
          (calculateTotalWaterUsage sampleState.meter_readings sampleState.units
            (getMeterReadings sampleState.meter_readings 2024 2) 2024 2)
          2024 2 17440 p.1 p.2)).sum = 17440
    ∧ ((billedPairs sampleState.units
        (getMeterReadings sampleState.meter_readings 2024 2)).map
        (fun p => preManagementCost (totalAreaOf sampleState.units) 223630 p.1)).sum
        = 223630 :=
  ⟨(c3_sums_amended sampleState.units sampleState.meter_readings 2024 2
      47440 17440 223630).1 (by norm_num [tEU_sample]),
   (c3_sums_amended sampleState.units sampleState.meter_readings 2024 2
      47440 17440 223630).2.1 (by norm_num [tWU_sample]),
   (c3_sums_amended sampleState.units sampleState.meter_readings 2024 2
      47440 17440 223630).2.2 (by norm_num [tA_sample])
     (by
        intro u hu
        simp only [sampleState, List.mem_cons, List.not_mem_nil, or_false] at hu
        rcases hu with rfl | rfl
        · rw [findA_sample]; rfl
        · rw [findB_sample]; rfl)⟩

end Autofee
